import Mathlib

/-!
Verification of the KJV Bible app core: the verse corpus addressing and
search model.  The embedding below follows the two source files:

1. the Supabase SQL schema (tables bible_books and bible_books_and_verses,
   the tsvector trigger update_verse_text_tsv, and the ranked search
   function search_verses), and
2. the client code (the useBibleApi hook with fetchChapter and
   searchVerses, plus the HomePage handlers handleToggleFavorite,
   handleAddVerseToTopic, handleRemoveVerseFromTopic and
   handleTopicsSearch).

External text-search engine primitives (to_tsvector, websearch_to_tsquery,
ts_rank) are parameters of the embedding: the repository delegates their
semantics to Postgres, so theorems hold for every instantiation.  The
ts_rank REAL score is modelled as a rational number; claims only depend on
its ordering.  Surrogate id and created_at columns of the tables are
omitted: no claim mentions them.
-/

/-- Row of the table bible_books_and_verses, with the tsvector column
verse_text_tsv (modelled as a token list produced by the external
to_tsvector function). -/
structure VerseRow where
  book_name : String
  book_chapter : Int
  verse_number : Int
  verse_text : String
  verse_text_tsv : List String
deriving DecidableEq

/-- Row of the table bible_books. -/
structure BookRow where
  book_id : Int
  book_name : String
  testament : String
  seq_number : Int
  chapter_count : Int
deriving DecidableEq

/-- The client Verse interface (useBibleApi.ts and page component). -/
structure Verse where
  book : String
  chapter : Int
  verse : Int
  text : String
deriving DecidableEq

/-- The transformation applied to Supabase rows in the client code:
book_name, book_chapter, verse_number, verse_text become the Verse
fields. -/
def toVerse (r : VerseRow) : Verse :=
  { book := r.book_name, chapter := r.book_chapter, verse := r.verse_number, text := r.verse_text }

/-- A query issued to the backing store, recorded so that theorems can
speak about which store calls an operation performs. -/
inductive StoreCall where
  | chapterQuery (book : String) (chapter : Int)
  | searchQuery (pattern : String)
deriving DecidableEq

/-- The state held by the useBibleApi hook: verses, loading, error. -/
structure ApiState where
  verses : List Verse
  loading : Bool
  error : Option String
deriving DecidableEq

/-- The fetchChapter function of the useBibleApi hook.  The store argument
stands for the Supabase chapter query (eq on book_name and book_chapter,
order by verse_number); its reply is either row data or a storage failure
message.  The function records the single store call it makes.  On
success it replaces the verse list and clears the error; on failure it
sets the error message and leaves the verse list untouched; loading ends
false in both cases (the finally block). -/
def fetchChapter (store : String → Int → Except String (List VerseRow))
    (book : String) (chapter : Int) (s : ApiState) : ApiState × List StoreCall :=
  match store book chapter with
  | .ok data =>
      ({ verses := data.map toVerse, loading := false, error := none },
       [.chapterQuery book chapter])
  | .error m =>
      ({ verses := s.verses, loading := false, error := some m },
       [.chapterQuery book chapter])

/-- Model of the JavaScript String.prototype.trim used by the client
code: leading and trailing whitespace characters are removed. -/
def jsTrim (s : String) : String :=
  ((s.data.dropWhile Char.isWhitespace).reverse.dropWhile Char.isWhitespace).reverse.asString

/-- The searchVerses function of the useBibleApi hook.  A query whose trim
is empty returns early: the verse list is cleared and no store call is
made (loading and error are left as they were).  Otherwise the ilike
pattern is sent to the store; success replaces the verse list, failure
sets the error message and keeps the previous verses. -/
def searchVerses (store : String → Except String (List VerseRow))
    (query : String) (s : ApiState) : ApiState × List StoreCall :=
  if jsTrim query = "" then
    ({ verses := [], loading := s.loading, error := s.error }, [])
  else
    match store ("%" ++ query ++ "%") with
    | .ok data =>
        ({ verses := data.map toVerse, loading := false, error := none },
         [.searchQuery ("%" ++ query ++ "%")])
    | .error m =>
        ({ verses := s.verses, loading := false, error := some m },
         [.searchQuery ("%" ++ query ++ "%")])

/-- The handleTopicsSearch function of the page component: an ilike store
query whose failure is caught and turned into an empty list. -/
def handleTopicsSearch (store : String → Except String (List VerseRow))
    (query : String) : List Verse :=
  match store ("%" ++ query ++ "%") with
  | .ok data => data.map toVerse
  | .error _ => []

/-- Ordering used by the chapter query: ascending verse_number. -/
def verseNumLe (a b : VerseRow) : Prop := a.verse_number ≤ b.verse_number

instance : DecidableRel verseNumLe := fun a b => Int.decLe a.verse_number b.verse_number

instance : IsTotal VerseRow verseNumLe := ⟨fun a b => Int.le_total a.verse_number b.verse_number⟩

instance : IsTrans VerseRow verseNumLe := ⟨fun _ _ _ h1 h2 => Int.le_trans h1 h2⟩

/-- Semantics of the Supabase chapter query over a corpus (the table
contents): filter on book_name and book_chapter, order by verse_number
ascending. -/
def selectChapter (corpus : List VerseRow) (book : String) (chapter : Int) : List VerseRow :=
  List.insertionSort verseNumLe
    (corpus.filter fun v => v.book_name == book && v.book_chapter == chapter)

/-- A reachable store backed by a concrete corpus. -/
def chapterStore (corpus : List VerseRow) : String → Int → Except String (List VerseRow) :=
  fun book chapter => .ok (selectChapter corpus book chapter)

/-- The UNIQUE(book_name, book_chapter, verse_number) constraint of the
verses table. -/
def uniqueKeys (corpus : List VerseRow) : Prop :=
  corpus.Pairwise fun a b =>
    ¬(a.book_name = b.book_name ∧ a.book_chapter = b.book_chapter ∧ a.verse_number = b.verse_number)

/-- Row returned by the SQL function search_verses: the four verse
columns plus the ts_rank score. -/
structure SearchRow where
  book_name : String
  book_chapter : Int
  verse_number : Int
  verse_text : String
  rank : ℚ
deriving DecidableEq

/-- The ORDER BY clause of search_verses: rank DESC, then book_name,
book_chapter, verse_number ascending.  Note the tie-break on equal ranks
is the book NAME (text ordering), not the canonical seq_number order of
the bible_books table. -/
def searchRowLe (a b : SearchRow) : Prop :=
  b.rank < a.rank ∨ (a.rank = b.rank ∧
    (a.book_name < b.book_name ∨ (a.book_name = b.book_name ∧
      (a.book_chapter < b.book_chapter ∨ (a.book_chapter = b.book_chapter ∧
        a.verse_number ≤ b.verse_number)))))

/-- Lexicographic key realizing searchRowLe: rank is negated to obtain
the descending direction. -/
def sortKey (r : SearchRow) : ℚ ×ₗ (String ×ₗ (Int ×ₗ Int)) :=
  toLex (-r.rank, toLex (r.book_name, toLex (r.book_chapter, r.verse_number)))

def searchRowLe_iff (a b : SearchRow) : searchRowLe a b ↔ sortKey a ≤ sortKey b := by
  simp only [searchRowLe, sortKey, Prod.Lex.le_iff, neg_lt_neg_iff, neg_inj]

/-- Kernel-computable decidability for the order on strings, via the
underlying character lists (the builtin instance is iterator-based and
does not reduce inside the kernel). -/
def strDecLt (a b : String) : Decidable (a < b) :=
  decidable_of_iff (a.toList < b.toList) String.lt_iff_toList_lt.symm

instance (priority := 2000) : DecidableRel ((· < ·) : String → String → Prop) := strDecLt

instance : DecidableRel searchRowLe := fun a b => by
  unfold searchRowLe; infer_instance

instance : IsTrans SearchRow searchRowLe :=
  ⟨fun a b c hab hbc =>
    (searchRowLe_iff a c).mpr (le_trans ((searchRowLe_iff a b).mp hab) ((searchRowLe_iff b c).mp hbc))⟩

instance : IsTotal SearchRow searchRowLe :=
  ⟨fun a b => (le_total (sortKey a) (sortKey b)).imp (searchRowLe_iff a b).mpr (searchRowLe_iff b a).mpr⟩

/-- The SQL function search_verses of the schema.  The external engine
primitives are parameters: tsqMatch models the tsvector match operator
against websearch_to_tsquery of the query, tsRank models ts_rank.  Rows
whose tsvector matches are ranked, ordered by rank DESC with ties broken
by book_name, book_chapter, verse_number ascending, and truncated to
max_results (the SQL default for max_results is 100). -/
def search_verses (tsqMatch : List String → String → Bool) (tsRank : List String → String → ℚ)
    (corpus : List VerseRow) (search_query : String) (max_results : Nat) : List SearchRow :=
  List.take max_results
    (List.insertionSort searchRowLe
      ((corpus.filter fun v => tsqMatch v.verse_text_tsv search_query).map fun v =>
        { book_name := v.book_name, book_chapter := v.book_chapter,
          verse_number := v.verse_number, verse_text := v.verse_text,
          rank := tsRank v.verse_text_tsv search_query }))

/-- Modelled from the spec: the canonical order over books is the one
induced by seq_number of the bible_books table (spec section 3, Book
invariant).  This looks a book name up in the books table and returns
its sequence number. -/
def seqNumberOf (books : List BookRow) (name : String) : Int :=
  match books.find? fun b => b.book_name == name with
  | some b => b.seq_number
  | none => 0

/-- Modelled from the spec: the ordering claimed for search results in
spec section 4.3, namely rank DESC with ties among equal ranks broken by
canonical book order (seq_number), then chapter, then verse number
ascending.  This is the claim side of C1, to be compared with the
searchRowLe ordering the code actually uses. -/
def canonicalTieLe (books : List BookRow) (a b : SearchRow) : Prop :=
  b.rank < a.rank ∨ (a.rank = b.rank ∧
    (seqNumberOf books a.book_name < seqNumberOf books b.book_name ∨
      (seqNumberOf books a.book_name = seqNumberOf books b.book_name ∧
        (a.book_chapter < b.book_chapter ∨ (a.book_chapter = b.book_chapter ∧
          a.verse_number ≤ b.verse_number)))))

instance (books : List BookRow) : DecidableRel (canonicalTieLe books) := fun a b => by
  unfold canonicalTieLe; infer_instance

/-- A two-book corpus used as concrete test data: canonically Genesis
(seq 1) precedes Exodus (seq 2), while alphabetically Exodus precedes
Genesis.  Both verses carry the same text, hence the same tsvector and
the same rank under any deterministic engine. -/
def demoBooks : List BookRow :=
  [⟨1, "Genesis", "Old Testament", 1, 50⟩, ⟨2, "Exodus", "Old Testament", 2, 40⟩]

def demoCorpus : List VerseRow :=
  [⟨"Genesis", 1, 1, "God is love", ["god", "love"]⟩,
   ⟨"Exodus", 1, 1, "God is love", ["god", "love"]⟩]

def demoMatch : List String → String → Bool := fun tsv q => tsv.contains q

def demoRank : List String → String → ℚ := fun tsv q => if tsv.contains q then 1 else 0

def initState : ApiState := { verses := [], loading := false, error := none }

/-- The composite key string built by the page component:
book underscore chapter underscore verse. -/
def verseKey (v : Verse) : String :=
  v.book ++ "_" ++ toString v.chapter ++ "_" ++ toString v.verse

/-- The favorites state of the page component: the favorites Set of key
strings (modelled as its insertion-ordered, duplicate-free element list)
and the favoriteVerses array. -/
structure FavState where
  favorites : List String
  favoriteVerses : List Verse
deriving DecidableEq

/-- The handleToggleFavorite handler.  If the key is in the favorites
set it is deleted and the first entry with that key is spliced out of
favoriteVerses; otherwise the key is added and the verse pushed. -/
def handleToggleFavorite (s : FavState) (verse : Verse) : FavState :=
  let key := verseKey verse
  if s.favorites.contains key then
    { favorites := s.favorites.filter fun k => k != key,
      favoriteVerses := s.favoriteVerses.eraseP fun v => verseKey v == key }
  else
    { favorites := s.favorites ++ [key],
      favoriteVerses := s.favoriteVerses ++ [verse] }

/-- Consistency between the two favorites representations: for every key
string, the favoriteVerses list holds exactly one entry with that key
when the key is in the favorites set, and none otherwise. -/
def favConsistent (s : FavState) : Prop :=
  ∀ k : String,
    s.favoriteVerses.countP (fun v => verseKey v == k)
      = if s.favorites.contains k then 1 else 0

/-- Composite-key equality on client verses, as written in the topic
handlers: book, chapter and verse number all equal. -/
def verseKeyEq (a b : Verse) : Bool :=
  a.book == b.book && a.chapter == b.chapter && a.verse == b.verse

/-- The client Topic interface.  The createdAt Date is modelled as an
integer timestamp. -/
structure Topic where
  id : String
  title : String
  description : String
  verses : List Verse
  createdAt : Int
deriving DecidableEq

/-- The handleAddVerseToTopic handler: on the topic with the given id,
append the verse unless an entry with the same composite key is already
present. -/
def handleAddVerseToTopic (topics : List Topic) (topicId : String) (verse : Verse) : List Topic :=
  topics.map fun topic =>
    if topic.id == topicId then
      if topic.verses.any (fun v => verseKeyEq v verse) then topic
      else { topic with verses := topic.verses ++ [verse] }
    else topic

/-- The handleRemoveVerseFromTopic handler: on the topic with the given
id, filter out every verse with the same composite key. -/
def handleRemoveVerseFromTopic (topics : List Topic) (topicId : String) (verse : Verse) : List Topic :=
  topics.map fun topic =>
    if topic.id == topicId then
      { topic with verses := topic.verses.filter fun v => !(verseKeyEq v verse) }
    else topic

/-- No two verses of the topic share a composite key. -/
def topicKeysUnique (t : Topic) : Prop :=
  t.verses.Pairwise fun a b => verseKeyEq a b = false

/-- The trigger function update_verse_text_tsv of the schema: the
incoming row has its verse_text_tsv column recomputed from verse_text by
the external to_tsvector function (the tsvec parameter). -/
def update_verse_text_tsv (tsvec : String → List String) (new : VerseRow) : VerseRow :=
  { new with verse_text_tsv := tsvec new.verse_text }

/-- The UNIQUE natural key of the verses table. -/
def sameVerseKey (a b : VerseRow) : Bool :=
  a.book_name == b.book_name && a.book_chapter == b.book_chapter
    && a.verse_number == b.verse_number

/-- Modelled from the spec: the insertOrUpdateVerse upsert of spec
section 4.1, keyed on the natural key; the DML statements themselves are
not in the repository, but the BEFORE INSERT OR UPDATE trigger bound to
the table by the schema is, and it is applied here to the incoming row,
for an update of an existing key as well as for a fresh insert. -/
def insertOrUpdateVerse (tsvec : String → List String) (table : List VerseRow)
    (new : VerseRow) : List VerseRow :=
  let fired := update_verse_text_tsv tsvec new
  if table.any fun r => sameVerseKey r new then
    table.map fun r => if sameVerseKey r new then fired else r
  else
    table ++ [fired]

/-- The search-index consistency invariant of spec section 4.2: every
row of the table carries the tsvector derived from its current text. -/
def tsvConsistent (tsvec : String → List String) (table : List VerseRow) : Prop :=
  ∀ r ∈ table, r.verse_text_tsv = tsvec r.verse_text

/-! Theorems.  Each claim of the specification is settled below. -/

/-- C4 (counterexample): fetchChapter called with the non-positive
chapter number 0 issues a store query and signals no error at all, so no
ValidationError rejection happens before the store call. -/
theorem c4_counterexample :
    (fetchChapter (chapterStore demoCorpus) "Genesis" 0 initState).2 ≠ []
      ∧ (fetchChapter (chapterStore demoCorpus) "Genesis" 0 initState).1.error = none := by
  decide

/-- C4 (amended): fetchChapter performs no input validation.  For every
book and chapter, including non-positive chapters, it issues exactly one
store query carrying those very arguments, and when the store is
reachable it signals no error: a malformed address simply yields the
store result (an empty list for an absent chapter). -/
theorem c4_fetchChapter_no_validation (store : String → Int → Except String (List VerseRow))
    (corpus : List VerseRow) (book : String) (chapter : Int) (s : ApiState) :
    (fetchChapter store book chapter s).2 = [StoreCall.chapterQuery book chapter]
      ∧ (fetchChapter (chapterStore corpus) book chapter s).1.error = none := by
  refine ⟨?_, rfl⟩
  unfold fetchChapter
  cases store book chapter <;> rfl

/-- C6: when the corpus holds no verses for the requested book and
chapter, fetchChapter yields an empty verse list and no error, while a
storage fault yields an error message: the two outcomes are distinct. -/
theorem c6_fetchChapter_empty_not_error (corpus : List VerseRow) (book : String)
    (chapter : Int) (s : ApiState)
    (h : ∀ r ∈ corpus, ¬(r.book_name = book ∧ r.book_chapter = chapter)) :
    ((fetchChapter (chapterStore corpus) book chapter s).1.verses = []
        ∧ (fetchChapter (chapterStore corpus) book chapter s).1.error = none)
      ∧ ∀ (m : String) (s2 : ApiState),
          (fetchChapter (fun _ _ => Except.error m) book chapter s2).1.error = some m := by
  have hfil : corpus.filter (fun v => v.book_name == book && v.book_chapter == chapter) = [] := by
    rw [List.filter_eq_nil_iff]
    intro r hr
    simpa [Bool.and_eq_true, beq_iff_eq] using h r hr
  refine ⟨⟨?_, rfl⟩, fun m s2 => rfl⟩
  show (selectChapter corpus book chapter).map toVerse = []
  rw [selectChapter, hfil]
  rfl

/-- C6 (witness): looking up a book absent from the demo corpus returns
the empty list with no error, and a failing store returns an error. -/
theorem c6_witness :
    ((fetchChapter (chapterStore demoCorpus) "Nonexistent" 1 initState).1.verses = []
        ∧ (fetchChapter (chapterStore demoCorpus) "Nonexistent" 1 initState).1.error = none)
      ∧ ∀ (m : String) (s2 : ApiState),
          (fetchChapter (fun _ _ => Except.error m) "Nonexistent" 1 s2).1.error = some m :=
  c6_fetchChapter_empty_not_error demoCorpus "Nonexistent" 1 initState (by decide)

/-- C3 (counterexample): a whitespace-only query makes searchVerses
clear the verse list and return with no store call, but no error of any
kind is signalled, so no ValidationError rejection takes place. -/
theorem c3_counterexample :
    (searchVerses (fun _ => Except.ok []) "   " initState).1.error = none
      ∧ (searchVerses (fun _ => Except.ok []) "   " initState).2 = []
      ∧ (searchVerses (fun _ => Except.ok []) "   " initState).1.verses = [] := by
  decide

/-- C3 (amended): a query that trims to the empty string is never
executed against the store: searchVerses returns immediately with the
verse list cleared, no store call recorded, and no error signalled (the
prior error and loading state are left untouched), rather than raising a
ValidationError. -/
theorem c3_searchVerses_whitespace (store : String → Except String (List VerseRow))
    (query : String) (s : ApiState) (h : jsTrim query = "") :
    searchVerses store query s = ({ verses := [], loading := s.loading, error := s.error }, []) := by
  unfold searchVerses
  rw [if_pos h]

/-- C3 (witness): the concrete one-space query returns the cleared state
with no store call. -/
theorem c3_witness :
    searchVerses (fun _ => Except.ok []) " " initState
      = ({ verses := [], loading := false, error := none }, []) :=
  c3_searchVerses_whitespace (fun _ => Except.ok []) " " initState (by decide)

/-- C2 (counterexample): when the backing store fails, the topics search
helper returns the empty list, indistinguishable from a no-match result,
contradicting the claim that a search never returns an empty result
sequence on storage failure. -/
theorem c2_counterexample :
    handleTopicsSearch (fun _ => Except.error "connection refused") "love" = [] := rfl

/-- C2 (amended): the searchVerses hook surfaces a storage failure by
setting the error state to the failure message while leaving the
previously loaded verses unchanged, so its callers can distinguish a
fault from an empty result; the handleTopicsSearch path, however,
swallows the failure and returns an empty list. -/
theorem c2_search_failure_handling (query : String) (s : ApiState) (m : String)
    (h : ¬ jsTrim query = "") :
    ((searchVerses (fun _ => Except.error m) query s).1.error = some m
        ∧ (searchVerses (fun _ => Except.error m) query s).1.verses = s.verses)
      ∧ handleTopicsSearch (fun _ => Except.error m) query = [] := by
  unfold searchVerses handleTopicsSearch
  rw [if_neg h]
  exact ⟨⟨rfl, rfl⟩, rfl⟩

/-- C2 (witness): a failing store on the query love sets the error state
and keeps the verse list, while the topics helper returns the empty
list. -/
theorem c2_witness :
    ((searchVerses (fun _ => Except.error "storage down") "love" initState).1.error
          = some "storage down"
        ∧ (searchVerses (fun _ => Except.error "storage down") "love" initState).1.verses = [])
      ∧ handleTopicsSearch (fun _ => Except.error "storage down") "love" = [] :=
  c2_search_failure_handling "love" initState "storage down" (by decide)

/-- C7: the BEFORE INSERT OR UPDATE trigger keeps the search index
consistent: if every row of the table carries the tsvector derived from
its text, the same holds after any insert or update through
insertOrUpdateVerse, because the trigger recomputes the tsvector of the
written row within the same write. -/
theorem c7_index_consistency (tsvec : String → List String) (table : List VerseRow)
    (new : VerseRow) (h : tsvConsistent tsvec table) :
    tsvConsistent tsvec (insertOrUpdateVerse tsvec table new) := by
  intro r hr
  unfold insertOrUpdateVerse at hr
  by_cases hx : (table.any fun r => sameVerseKey r new) = true
  · rw [if_pos hx] at hr
    rcases List.mem_map.mp hr with ⟨r0, hr0, rfl⟩
    by_cases hk : sameVerseKey r0 new = true
    · rw [if_pos hk]
      rfl
    · rw [if_neg hk]
      exact h r0 hr0
  · rw [if_neg hx] at hr
    rcases List.mem_append.mp hr with h1 | h2
    · exact h r h1
    · rw [List.mem_singleton.mp h2]
      rfl

/-- C7 (witness): inserting a verse into the empty table under a
concrete tokenizer leaves every row with a tsvector derivable from its
text. -/
theorem c7_witness :
    tsvConsistent (fun t => [t])
      (insertOrUpdateVerse (fun t => [t])
        [] ⟨"John", 3, 16, "For God so loved the world", []⟩) :=
  c7_index_consistency (fun t => [t]) []
    ⟨"John", 3, 16, "For God so loved the world", []⟩ (by intro r hr; cases hr)

/-- C5: under the UNIQUE natural-key constraint of the verses table, the
verse list produced by fetchChapter is sorted strictly ascending by
verse number: the query orders ascending and uniqueness within the
(book, chapter) pair rules out equal numbers. -/
theorem c5_fetchChapter_strictly_ascending (corpus : List VerseRow) (book : String)
    (chapter : Int) (s : ApiState) (h : uniqueKeys corpus) :
    List.Pairwise (fun a b => a.verse < b.verse)
      ((fetchChapter (chapterStore corpus) book chapter s).1.verses) := by
  have hres : (fetchChapter (chapterStore corpus) book chapter s).1.verses
      = (selectChapter corpus book chapter).map toVerse := rfl
  rw [hres, List.pairwise_map]
  have hsorted : List.Sorted verseNumLe (selectChapter corpus book chapter) :=
    List.sorted_insertionSort verseNumLe _
  have hperm : (selectChapter corpus book chapter).Perm
      (corpus.filter fun v => v.book_name == book && v.book_chapter == chapter) :=
    List.perm_insertionSort verseNumLe _
  have hne0 : (corpus.filter fun v => v.book_name == book && v.book_chapter == chapter).Pairwise
      fun a b => a.verse_number ≠ b.verse_number := by
    have hfk := List.Pairwise.filter
      (fun v => v.book_name == book && v.book_chapter == chapter) h
    refine hfk.imp_of_mem ?_
    intro a b ha hb hab hveq
    have hpa := List.of_mem_filter ha
    have hpb := List.of_mem_filter hb
    simp only [Bool.and_eq_true, beq_iff_eq] at hpa hpb
    exact hab ⟨hpa.1.trans hpb.1.symm, hpa.2.trans hpb.2.symm, hveq⟩
  have hne : (selectChapter corpus book chapter).Pairwise
      fun a b => a.verse_number ≠ b.verse_number :=
    (List.Perm.pairwise_iff (fun hxy => Ne.symm hxy) hperm).mpr hne0
  exact (hsorted.and hne).imp fun hab => lt_of_le_of_ne hab.1 hab.2

/-- C5 (witness): fetching Genesis 1 from the demo corpus yields a
strictly ascending verse list. -/
theorem c5_witness :
    List.Pairwise (fun a b => a.verse < b.verse)
      ((fetchChapter (chapterStore demoCorpus) "Genesis" 1 initState).1.verses) :=
  c5_fetchChapter_strictly_ascending demoCorpus "Genesis" 1 initState
    (by unfold uniqueKeys; decide)

/-- Helper: erasing the first match of p from a list that has no match,
extended by one matching element, removes exactly that element, so no
match remains. -/
theorem eraseP_append_of_no_match {α : Type} (p : α → Bool) (l : List α) (v : α)
    (hv : p v = true) (hl : l.any p = false) :
    (List.eraseP p (l ++ [v])).any p = false := by
  rw [List.eraseP_append_right]
  · rw [List.eraseP_cons_of_pos hv, List.append_nil]
    exact hl
  · intro b hb hpb
    rw [List.any_eq_false] at hl
    exact hl b hb hpb

/-- C8: toggling the same verse twice restores the original membership
state, both in the favorites key set and (by key) in the favoriteVerses
list, provided the two representations agreed on that verse to begin
with. -/
theorem c8_double_toggle (s : FavState) (v : Verse)
    (h : s.favorites.contains (verseKey v)
        = s.favoriteVerses.any fun w => verseKey w == verseKey v) :
    ((handleToggleFavorite (handleToggleFavorite s v) v).favorites.contains (verseKey v)
        = s.favorites.contains (verseKey v))
      ∧ ((handleToggleFavorite (handleToggleFavorite s v) v).favoriteVerses.any
            (fun w => verseKey w == verseKey v)
          = s.favoriteVerses.any fun w => verseKey w == verseKey v) := by
  by_cases hc : s.favorites.contains (verseKey v) = true
  · have h1 : handleToggleFavorite s v
        = { favorites := s.favorites.filter fun k => k != verseKey v,
            favoriteVerses := s.favoriteVerses.eraseP fun w => verseKey w == verseKey v } := by
      unfold handleToggleFavorite
      rw [if_pos hc]
    have h2 : (s.favorites.filter fun k => k != verseKey v).contains (verseKey v) = false := by
      simp
    have h3 : handleToggleFavorite (handleToggleFavorite s v) v
        = { favorites := (s.favorites.filter fun k => k != verseKey v) ++ [verseKey v],
            favoriteVerses :=
              (s.favoriteVerses.eraseP fun w => verseKey w == verseKey v) ++ [v] } := by
      rw [h1]
      unfold handleToggleFavorite
      rw [if_neg (by rw [h2]; exact Bool.false_ne_true)]
    rw [h3]
    constructor
    · have h4 : ((s.favorites.filter fun k => k != verseKey v) ++ [verseKey v]).contains
          (verseKey v) = true := by simp
      rw [h4, hc]
    · rw [← h, hc]
      simp
  · have hcf : s.favorites.contains (verseKey v) = false := by
      cases hx : s.favorites.contains (verseKey v) with
      | false => rfl
      | true => exact absurd hx hc
    have hvf : (s.favoriteVerses.any fun w => verseKey w == verseKey v) = false := by
      rw [← h]
      exact hcf
    have h1 : handleToggleFavorite s v
        = { favorites := s.favorites ++ [verseKey v],
            favoriteVerses := s.favoriteVerses ++ [v] } := by
      unfold handleToggleFavorite
      rw [if_neg hc]
    have h2 : (s.favorites ++ [verseKey v]).contains (verseKey v) = true := by simp
    have h3 : handleToggleFavorite (handleToggleFavorite s v) v
        = { favorites := (s.favorites ++ [verseKey v]).filter fun k => k != verseKey v,
            favoriteVerses := (s.favoriteVerses ++ [v]).eraseP fun w => verseKey w == verseKey v } := by
      rw [h1]
      unfold handleToggleFavorite
      rw [if_pos h2]
    rw [h3]
    constructor
    · have h4 : (((s.favorites ++ [verseKey v]).filter fun k => k != verseKey v)).contains
          (verseKey v) = false := by simp
      rw [h4, hcf]
    · rw [hvf]
      exact eraseP_append_of_no_match _ s.favoriteVerses v (by simp) hvf

/-- C8 (witness): double-toggling John 3:16 on a state that has it as a
favorite leaves its membership in both representations as it was. -/
theorem c8_witness :
    ((handleToggleFavorite
          (handleToggleFavorite
            ⟨["John_3_16"], [⟨"John", 3, 16, "For God so loved the world"⟩]⟩
            ⟨"John", 3, 16, "For God so loved the world"⟩)
          ⟨"John", 3, 16, "For God so loved the world"⟩).favorites.contains
        (verseKey ⟨"John", 3, 16, "For God so loved the world"⟩)
        = (["John_3_16"] : List String).contains
            (verseKey ⟨"John", 3, 16, "For God so loved the world"⟩))
      ∧ ((handleToggleFavorite
            (handleToggleFavorite
              ⟨["John_3_16"], [⟨"John", 3, 16, "For God so loved the world"⟩]⟩
              ⟨"John", 3, 16, "For God so loved the world"⟩)
            ⟨"John", 3, 16, "For God so loved the world"⟩).favoriteVerses.any
              (fun w => verseKey w == verseKey ⟨"John", 3, 16, "For God so loved the world"⟩)
          = ([⟨"John", 3, 16, "For God so loved the world"⟩] : List Verse).any
              fun w => verseKey w == verseKey ⟨"John", 3, 16, "For God so loved the world"⟩) :=
  c8_double_toggle ⟨["John_3_16"], [⟨"John", 3, 16, "For God so loved the world"⟩]⟩
    ⟨"John", 3, 16, "For God so loved the world"⟩ (by decide)

/-- Helper: mapping a function that fixes every element of a list is the
identity. -/
theorem map_eq_self_of_fix {α : Type} (l : List α) (f : α → α) (h : ∀ x ∈ l, f x = x) :
    l.map f = l := by
  induction l with
  | nil => rfl
  | cons a l ih =>
      rw [List.map_cons, h a (List.mem_cons_self a l), ih fun x hx => h x (List.mem_cons_of_mem a hx)]

/-- C9: on a topic that already holds a verse with the same composite
key, adding is a no-op; on a topic holding no verse with the key,
removing is a no-op; and both operations preserve the invariant that no
topic holds two verses with the same composite key. -/
theorem c9_topic_add_remove (topics : List Topic) (topicId : String) (va vr v : Verse)
    (ha : ∀ t ∈ topics, t.id = topicId → (t.verses.any fun w => verseKeyEq w va) = true)
    (hr : ∀ t ∈ topics, t.id = topicId → ∀ w ∈ t.verses, verseKeyEq w vr = false)
    (hu : ∀ t ∈ topics, topicKeysUnique t) :
    handleAddVerseToTopic topics topicId va = topics
      ∧ handleRemoveVerseFromTopic topics topicId vr = topics
      ∧ (∀ t ∈ handleAddVerseToTopic topics topicId v, topicKeysUnique t)
      ∧ (∀ t ∈ handleRemoveVerseFromTopic topics topicId v, topicKeysUnique t) := by
  refine ⟨?_, ?_, ?_, ?_⟩
  · unfold handleAddVerseToTopic
    apply map_eq_self_of_fix
    intro t ht
    by_cases hid : (t.id == topicId) = true
    · rw [if_pos hid, if_pos (ha t ht (by rwa [beq_iff_eq] at hid))]
    · rw [if_neg hid]
  · unfold handleRemoveVerseFromTopic
    apply map_eq_self_of_fix
    intro t ht
    by_cases hid : (t.id == topicId) = true
    · rw [if_pos hid]
      have hfil : t.verses.filter (fun w => !(verseKeyEq w vr)) = t.verses := by
        rw [List.filter_eq_self]
        intro w hw
        rw [hr t ht (by rwa [beq_iff_eq] at hid) w hw]
        rfl
      rw [hfil]
    · rw [if_neg hid]
  · intro t2 ht2
    unfold handleAddVerseToTopic at ht2
    rcases List.mem_map.mp ht2 with ⟨t, ht, rfl⟩
    by_cases hid : (t.id == topicId) = true
    · rw [if_pos hid]
      by_cases hx : (t.verses.any fun w => verseKeyEq w v) = true
      · rw [if_pos hx]
        exact hu t ht
      · rw [if_neg hx]
        unfold topicKeysUnique
        rw [List.pairwise_append]
        refine ⟨hu t ht, List.pairwise_singleton _ v, ?_⟩
        intro a hav b hbv
        rw [List.mem_singleton.mp hbv]
        rw [Bool.not_eq_true, List.any_eq_false] at hx
        exact Bool.eq_false_iff.mpr (hx a hav)
    · rw [if_neg hid]
      exact hu t ht
  · intro t2 ht2
    unfold handleRemoveVerseFromTopic at ht2
    rcases List.mem_map.mp ht2 with ⟨t, ht, rfl⟩
    by_cases hid : (t.id == topicId) = true
    · rw [if_pos hid]
      exact List.Pairwise.filter _ (hu t ht)
    · rw [if_neg hid]
      exact hu t ht

/-- C9 (witness): on a concrete topic holding John 3:16, re-adding
John 3:16 and removing the absent Genesis 1:1 are both no-ops, and key
uniqueness is preserved under both handlers. -/
theorem c9_witness :
    handleAddVerseToTopic
        [⟨"1", "Love", "verses about love",
          [⟨"John", 3, 16, "For God so loved the world"⟩], 0⟩] "1"
        ⟨"John", 3, 16, "For God so loved the world"⟩
      = [⟨"1", "Love", "verses about love",
          [⟨"John", 3, 16, "For God so loved the world"⟩], 0⟩]
    ∧ handleRemoveVerseFromTopic
        [⟨"1", "Love", "verses about love",
          [⟨"John", 3, 16, "For God so loved the world"⟩], 0⟩] "1"
        ⟨"Genesis", 1, 1, "In the beginning"⟩
      = [⟨"1", "Love", "verses about love",
          [⟨"John", 3, 16, "For God so loved the world"⟩], 0⟩]
    ∧ (∀ t ∈ handleAddVerseToTopic
        [⟨"1", "Love", "verses about love",
          [⟨"John", 3, 16, "For God so loved the world"⟩], 0⟩] "1"
        ⟨"Genesis", 1, 1, "In the beginning"⟩, topicKeysUnique t)
    ∧ (∀ t ∈ handleRemoveVerseFromTopic
        [⟨"1", "Love", "verses about love",
          [⟨"John", 3, 16, "For God so loved the world"⟩], 0⟩] "1"
        ⟨"Genesis", 1, 1, "In the beginning"⟩, topicKeysUnique t) :=
  c9_topic_add_remove
    [⟨"1", "Love", "verses about love", [⟨"John", 3, 16, "For God so loved the world"⟩], 0⟩]
    "1" ⟨"John", 3, 16, "For God so loved the world"⟩ ⟨"Genesis", 1, 1, "In the beginning"⟩
    ⟨"Genesis", 1, 1, "In the beginning"⟩
    (by decide) (by decide)
    (by
      intro t ht
      rw [List.mem_singleton] at ht
      subst ht
      exact List.pairwise_singleton _ _)

/-- Helper: erasing the unique match of p from a list leaves no
match. -/
theorem countP_eraseP_self {α : Type} (p : α → Bool) (l : List α) (h : l.countP p = 1) :
    (l.eraseP p).countP p = 0 := by
  induction l with
  | nil => simp at h
  | cons a l ih =>
      by_cases hp : p a = true
      · rw [List.eraseP_cons_of_pos hp]
        rw [List.countP_cons, if_pos hp] at h
        omega
      · rw [List.eraseP_cons_of_neg hp]
        rw [List.countP_cons, if_neg hp] at h
        rw [List.countP_cons, if_neg hp]
        rw [Nat.add_zero] at h ⊢
        exact ih h

/-- Helper: erasing a match of p does not change the count of a
predicate q disjoint from p. -/
theorem countP_eraseP_of_disjoint {α : Type} (p q : α → Bool) (l : List α)
    (h : ∀ x, p x = true → q x = false) :
    (l.eraseP p).countP q = l.countP q := by
  induction l with
  | nil => rfl
  | cons a l ih =>
      by_cases hp : p a = true
      · rw [List.eraseP_cons_of_pos hp, List.countP_cons,
          if_neg (by rw [h a hp]; exact Bool.false_ne_true)]
        omega
      · rw [List.eraseP_cons_of_neg hp, List.countP_cons, List.countP_cons, ih]

/-- C10: handleToggleFavorite preserves the consistency invariant
between the favorites key set and the favoriteVerses list: after a
toggle, the list still holds exactly one entry for every key in the set
and none for any other key. -/
theorem c10_toggle_keeps_consistency (s : FavState) (v : Verse) (h : favConsistent s) :
    favConsistent (handleToggleFavorite s v) := by
  intro k
  by_cases hc : s.favorites.contains (verseKey v) = true
  · have h1 : handleToggleFavorite s v
        = { favorites := s.favorites.filter fun x => x != verseKey v,
            favoriteVerses := s.favoriteVerses.eraseP fun w => verseKey w == verseKey v } := by
      unfold handleToggleFavorite
      rw [if_pos hc]
    rw [h1]
    by_cases hk : k = verseKey v
    · subst hk
      have hone : s.favoriteVerses.countP (fun w => verseKey w == verseKey v) = 1 := by
        have hv := h (verseKey v)
        rw [hc, if_pos rfl] at hv
        exact hv
      show (s.favoriteVerses.eraseP fun w => verseKey w == verseKey v).countP
          (fun w => verseKey w == verseKey v)
        = if (s.favorites.filter fun x => x != verseKey v).contains (verseKey v) then 1 else 0
      rw [countP_eraseP_self _ _ hone]
      have hcl : (s.favorites.filter fun x => x != verseKey v).contains (verseKey v) = false := by
        simp
      rw [hcl]
      rfl
    · have hdisj : ∀ x : Verse, (verseKey x == verseKey v) = true → (verseKey x == k) = false := by
        intro x hx
        rw [beq_iff_eq] at hx
        rw [hx]
        exact beq_eq_false_iff_ne.mpr (Ne.symm hk)
      show (s.favoriteVerses.eraseP fun w => verseKey w == verseKey v).countP
          (fun w => verseKey w == k)
        = if (s.favorites.filter fun x => x != verseKey v).contains k then 1 else 0
      rw [countP_eraseP_of_disjoint _ _ _ hdisj]
      have hcf : (s.favorites.filter fun x => x != verseKey v).contains k
          = s.favorites.contains k := by
        simp [hk]
      rw [hcf]
      exact h k
  · have hcf : s.favorites.contains (verseKey v) = false :=
      Bool.eq_false_iff.mpr hc
    have h1 : handleToggleFavorite s v
        = { favorites := s.favorites ++ [verseKey v],
            favoriteVerses := s.favoriteVerses ++ [v] } := by
      unfold handleToggleFavorite
      rw [if_neg hc]
    rw [h1]
    by_cases hk : k = verseKey v
    · subst hk
      have hzero : s.favoriteVerses.countP (fun w => verseKey w == verseKey v) = 0 := by
        have hv := h (verseKey v)
        rw [hcf] at hv
        simpa using hv
      show (s.favoriteVerses ++ [v]).countP (fun w => verseKey w == verseKey v)
        = if (s.favorites ++ [verseKey v]).contains (verseKey v) then 1 else 0
      rw [List.countP_append, hzero]
      have hct : (s.favorites ++ [verseKey v]).contains (verseKey v) = true := by simp
      rw [hct]
      simp [List.countP_cons]
    · show (s.favoriteVerses ++ [v]).countP (fun w => verseKey w == k)
        = if (s.favorites ++ [verseKey v]).contains k then 1 else 0
      rw [List.countP_append]
      have hz : List.countP (fun w => verseKey w == k) [v] = 0 := by
        rw [List.countP_cons, List.countP_nil, if_neg]
        rw [beq_eq_false_iff_ne.mpr (Ne.symm hk)]
        exact Bool.false_ne_true
      have hcc : (s.favorites ++ [verseKey v]).contains k = s.favorites.contains k := by
        simp [hk]
      rw [hz, hcc, Nat.add_zero]
      exact h k

/-- C10 (witness): toggling a verse on the empty, trivially consistent
state yields a consistent state. -/
theorem c10_witness :
    favConsistent (handleToggleFavorite ⟨[], []⟩ ⟨"Genesis", 1, 1, "In the beginning"⟩) :=
  c10_toggle_keeps_consistency ⟨[], []⟩ ⟨"Genesis", 1, 1, "In the beginning"⟩
    (fun _ => rfl)

/-- C1 (counterexample): searching the demo corpus for god yields two
results with equal rank, returned as Exodus before Genesis because the
SQL tie-break orders by the book name text; canonical book order
(seq_number) puts Genesis first, so the result sequence violates the
claimed canonical tie-break ordering. -/
theorem c1_counterexample :
    (search_verses demoMatch demoRank demoCorpus "god" 100).map SearchRow.book_name
        = ["Exodus", "Genesis"]
      ∧ (∀ r ∈ search_verses demoMatch demoRank demoCorpus "god" 100, r.rank = 1)
      ∧ seqNumberOf demoBooks "Genesis" < seqNumberOf demoBooks "Exodus"
      ∧ ¬ List.Sorted (canonicalTieLe demoBooks)
          (search_verses demoMatch demoRank demoCorpus "god" 100) := by
  decide

/-- C1 (amended): for every query and every bound, search_verses returns
at most that many results, ordered by descending rank with ties among
equal ranks broken by book name (text order), then chapter, then verse
number, all ascending, as stated by the searchRowLe relation; the
tie-break is the alphabetical book name, not the canonical seq_number
book order. -/
theorem c1_search_verses_order (tsqMatch : List String → String → Bool)
    (tsRank : List String → String → ℚ) (corpus : List VerseRow)
    (search_query : String) (max_results : Nat) :
    (search_verses tsqMatch tsRank corpus search_query max_results).length ≤ max_results
      ∧ List.Sorted searchRowLe
          (search_verses tsqMatch tsRank corpus search_query max_results) := by
  constructor
  · exact List.length_take_le _ _
  · exact List.Pairwise.sublist (List.take_sublist _ _)
      (List.sorted_insertionSort searchRowLe _)
